import Mathlib

/-!
Verification of the iDRAC exporter (idrac_exporter.py) against its
specification.  The Python source is shallowly embedded: JSON documents are an
inductive type, Python exceptions become `Except PyErr`, the HTTP transport is
a parameter mapping each requested resource path to its outcome, and wall
clock time and the external timestamp parsing library (dateutil) are
parameters of the event log collector.  Python floats are modelled as exact
rationals.
-/

set_option maxHeartbeats 1000000

/-- A parsed JSON document, as produced by the json decoder of the requests
library.  Integers and floating values are kept apart because Python does so. -/
inductive Json where
  | null
  | bool (b : Bool)
  | int (n : Int)
  | float (q : Rat)
  | str (s : String)
  | arr (elems : List Json)
  | obj (fields : List (String × Json))

/-- The Python exceptions that the embedded code can raise. -/
inductive PyErr where
  | keyError
  | typeError
  | attributeError
  | valueError
  | transportError
  | jsonDecodeError
  | runtimeError (msg : String)
  deriving Repr, DecidableEq

/-- A Python value as it is passed to metrics_add, either as a label value or
as a metric value.  pyNone is the Python None object. -/
inductive PyVal where
  | int (n : Int)
  | float (q : Rat)
  | str (s : String)
  | bool (b : Bool)
  | pyNone
  | other (j : Json)

/-- Truncation toward zero, the behaviour of the Python int() builtin on a
float (modelled as an exact rational). -/
def ratTrunc (q : Rat) : Int := Int.tdiv q.num (q.den : Int)

/-- Fractional decimal digits of rem/d, at most fuel of them.  Helper for the
modelled decimal rendering of a float. -/
def fracDigits : Nat → Nat → Nat → String
  | _, _, 0 => ""
  | rem, d, fuel + 1 =>
    if rem = 0 then ""
    else
      let rem10 := rem * 10
      toString (rem10 / d) ++ fracDigits (rem10 % d) d fuel

/-- Modelled from the Python str() rendering of a float: decimal notation with
a mandatory fractional part.  Exact only for floats whose value has a finite
decimal expansion, which covers every value the exporter prints. -/
def ratRepr (q : Rat) : String :=
  let sign := if q.num < 0 then "-" else ""
  let n := q.num.natAbs
  let d := q.den
  if n % d = 0 then sign ++ toString (n / d) ++ ".0"
  else sign ++ toString (n / d) ++ "." ++ fracDigits (n % d) d 30

mutual

/-- Modelled from the Python repr() of a decoded JSON container value; only
reachable for a label whose value is a list or a dict, which no modelled
payload produces. -/
def jsonReprModel : Json → String
  | .null => "None"
  | .bool b => if b then "True" else "False"
  | .int n => toString n
  | .float q => ratRepr q
  | .str s => "\x27" ++ s ++ "\x27"
  | .arr xs => "[" ++ String.intercalate ", " (jsonReprList xs) ++ "]"
  | .obj kvs => "\x7b" ++ String.intercalate ", " (jsonReprFields kvs) ++ "\x7d"

def jsonReprList : List Json → List String
  | [] => []
  | x :: xs => jsonReprModel x :: jsonReprList xs

def jsonReprFields : List (String × Json) → List String
  | [] => []
  | (k, v) :: xs => ("\x27" ++ k ++ "\x27: " ++ jsonReprModel v) :: jsonReprFields xs

end

/-- The Python %s conversion (str()) of a value. -/
def pyStr : PyVal → String
  | .int n => toString n
  | .float q => ratRepr q
  | .str s => s
  | .bool b => if b then "True" else "False"
  | .pyNone => "None"
  | .other j => jsonReprModel j

/-- How a decoded JSON value turns into the Python value held in a variable. -/
def Json.toPyVal : Json → PyVal
  | .null => .pyNone
  | .bool b => .bool b
  | .int n => .int n
  | .float q => .float q
  | .str s => .str s
  | j => .other j

/-- Python d[k] on a decoded JSON value: KeyError when the key is missing,
TypeError when the value is not a dict (string and list subscripts take
integers). -/
def Json.getItem (j : Json) (k : String) : Except PyErr Json :=
  match j with
  | .obj fields =>
    match fields.lookup k with
    | some v => .ok v
    | none => .error .keyError
  | _ => .error .typeError

/-- Python d.get(k) on a decoded JSON value: None when the key is missing,
AttributeError when the value is not a dict. -/
def Json.dictGet (j : Json) (k : String) : Except PyErr (Option Json) :=
  match j with
  | .obj fields => .ok (fields.lookup k)
  | _ => .error .attributeError

/-- Python iteration (for x in v) over the result of a d.get(k): iterating
None raises TypeError, a list yields its elements, a dict its keys, a string
its one-character substrings. -/
def pyIter : Option Json → Except PyErr (List Json)
  | none => .error .typeError
  | some (.arr xs) => .ok xs
  | some (.obj kvs) => .ok (kvs.map fun kv => .str kv.1)
  | some (.str s) => .ok (s.toList.map fun c => .str (String.mk [c]))
  | some _ => .error .typeError

/-- Signed decimal parsing helper for the float() and int() builtins. -/
def parseDigits : List Char → Option Nat
  | [] => none
  | cs =>
    if cs.all (fun c => c.isDigit) then
      some (cs.foldl (fun n c => n * 10 + (c.toNat - 48)) 0)
    else none

/-- Modelled from the Python float() builtin on a string holding a plain
decimal literal (optional sign, digits, optional fractional digits); other
accepted spellings (exponents, inf/nan, underscores) are not modelled because
no modelled payload uses them.  ValueError on anything else. -/
def parseFloatLit (s : String) : Except PyErr Rat :=
  let cs := (s.toList.dropWhile (· == ' ')).reverse.dropWhile (· == ' ') |>.reverse
  let (neg, cs) := match cs with
    | '-' :: rest => (true, rest)
    | '+' :: rest => (false, rest)
    | rest => (false, rest)
  let ip := cs.takeWhile (fun c => c ≠ '.')
  let rest := cs.drop ip.length
  let fracPart : Except PyErr Rat :=
    match rest with
    | [] => if ip.isEmpty then .error .valueError else .ok 0
    | '.' :: fp =>
      if ip.isEmpty ∧ fp.isEmpty then .error .valueError
      else if fp.isEmpty then .ok 0
      else match parseDigits fp with
        | some n => .ok ((n : Rat) / ((10 : Rat) ^ fp.length))
        | none => .error .valueError
    | _ => .error .valueError
  match fracPart with
  | .error e => .error e
  | .ok frac =>
    let ipVal : Except PyErr Rat :=
      if ip.isEmpty then .ok 0
      else match parseDigits ip with
        | some n => .ok (n : Rat)
        | none => .error .valueError
    match ipVal with
    | .error e => .error e
    | .ok ipv =>
      let v := ipv + frac
      .ok (if neg then -v else v)

/-- The Python float() builtin on a decoded JSON value. -/
def pyFloat : Json → Except PyErr Rat
  | .int n => .ok (n : Rat)
  | .float q => .ok q
  | .bool b => .ok (if b then 1 else 0)
  | .str s => parseFloatLit s
  | _ => .error .typeError

/-- The Python int() builtin on a decoded JSON value: floats truncate toward
zero, strings must be plain signed integer literals. -/
def pyInt : Json → Except PyErr Int
  | .int n => .ok n
  | .float q => .ok (ratTrunc q)
  | .bool b => .ok (if b then 1 else 0)
  | .str s =>
    let cs := (s.toList.dropWhile (· == ' ')).reverse.dropWhile (· == ' ') |>.reverse
    let (neg, cs) := match cs with
      | '-' :: rest => (true, rest)
      | '+' :: rest => (false, rest)
      | rest => (false, rest)
    match parseDigits cs with
    | some n => .ok (if neg then -(n : Int) else (n : Int))
    | none => .error .valueError
  | _ => .error .typeError

/-- Python s.strip(".") as used on the event log message text: removes every
leading and every trailing period character. -/
def pyStripDots (s : String) : String :=
  String.mk (((s.toList.dropWhile (· == '.')).reverse.dropWhile (· == '.')).reverse)

/-- Python j == "lit" between a decoded JSON value and a string literal. -/
def Json.eqStr (j : Json) (lit : String) : Bool :=
  match j with
  | .str s => s == lit
  | _ => false

/-!  Transport client (RedfishAPI.get) -/

/-- Outcome of one underlying HTTPS request (requests.Session.get followed by
decoding the body): either the library raises (timeout, connection refused),
or a status code arrives together with the result of decoding the body as
JSON (none when decoding raises). -/
inductive HttpResult where
  | exc
  | resp (status : Nat) (body : Option Json)

/-- The upstream management controller, as seen through the transport: what
each requested resource path (relative to the API root) returns. -/
def Env : Type := String → HttpResult

/-- The dict built and returned by RedfishAPI.get. -/
structure GetRetval where
  json : Json
  error : Option Nat

/-- RedfishAPI.get: issue the request; a status of 200 clears the error code;
decoding the body can itself raise.  Transport exceptions and decode failures
propagate to the caller. -/
def RedfishAPI.get (env : Env) (url : String) : Except PyErr GetRetval :=
  match env url with
  | .exc => .error .transportError
  | .resp status body =>
    let code : Option Nat := if status = 200 then none else some status
    match body with
    | none => .error .jsonDecodeError
    | some j => .ok { json := j, error := code }

/-- RedfishAPI.authenticate: one probe GET of the Chassis resource inside a
broad try/except; valid exactly when the probe neither raised nor reported an
error code. -/
def RedfishAPI.authenticate (env : Env) : Bool :=
  match RedfishAPI.get env "Chassis" with
  | .error _ => false
  | .ok result => result.error.isNone

/-!  Metric sink (metrics_clear / metrics_add / metrics_get) -/

/-- One invocation of metrics_add: the name, the args dict in insertion
order, and the value argument. -/
structure MetricCall where
  name : String
  args : List (String × PyVal)
  value : PyVal

/-- The line formatted by metrics_add: namespace, name, the label set in
braces only when args is non-empty, a space, then the value, with None
rendered as NaN. -/
def formatLine (name : String) (args : List (String × PyVal)) (value : PyVal) : String :=
  let argsStr :=
    match args with
    | [] => ""
    | _ => "\x7b" ++ String.intercalate ","
        (args.map fun kv => kv.1 ++ "=\"" ++ pyStr kv.2 ++ "\"") ++ "\x7d"
  let valueStr :=
    match value with
    | .pyNone => "NaN"
    | v => pyStr v
  "idrac_" ++ name ++ argsStr ++ " " ++ valueStr

/-- metrics_clear: the buffer becomes empty. -/
def RedfishAPI.metrics_clear : List String := []

/-- metrics_add: append the formatted line to the buffer. -/
def RedfishAPI.metrics_add (metrics : List String) (name : String)
    (args : List (String × PyVal)) (value : PyVal) : List String :=
  metrics ++ [formatLine name args value]

/-- metrics_get: the buffer joined by newlines plus a trailing newline.  The
method only reads the buffer, so the returned state is the unchanged input. -/
def RedfishAPI.metrics_get (metrics : List String) : String × List String :=
  (String.intercalate "\n" metrics ++ "\n", metrics)

/-- The sink obtained by replaying a list of metrics_add calls on a freshly
cleared buffer. -/
def sinkAfter (calls : List MetricCall) : List String :=
  calls.foldl (fun st c => RedfishAPI.metrics_add st c.name c.args c.value)
    RedfishAPI.metrics_clear

/-!  Collectors -/

def basicsPath : String := "Systems/System.Embedded.1"

def sensorsPath : String := "Dell/Systems/System.Embedded.1/DellNumericSensorCollection"

def selPath : String := "Managers/iDRAC.Embedded.1/Logs/Sel"

/-- The body of the event log loop for one entry.  The timestamp parsing
chain dateutil.parser.isoparse / timetuple / time.mktime is an external
library, modelled as the parameter parseTs returning the creation time in
whole epoch seconds or raising; now is the value of time.time().  A raise of
the loop body discards the whole pass, as in the pipeline. -/
def selEntry (now : Rat) (parseTs : String → Except PyErr Int) (entry : Json) :
    Except PyErr MetricCall := do
  let eid ← entry.getItem "Id"
  let msgJ ← entry.getItem "Message"
  let msg ← match msgJ with
    | .str s => Except.ok (pyStripDots s)
    | _ => Except.error PyErr.attributeError
  let comp ← entry.getItem "SensorType"
  let sev ← entry.getItem "Severity"
  let createdJ ← entry.getItem "Created"
  let created ← match createdJ with
    | .str s => parseTs s
    | _ => Except.error PyErr.typeError
  let value : Int := ratTrunc (now - (created : Rat))
  pure { name := "sel_entry",
         args := [("id", eid.toPyVal), ("message", .str msg),
                  ("component", comp.toPyVal), ("severity", sev.toPyVal)],
         value := .int value }

/-- collect_sel: fetch the event log; a reported error code makes the
collector contribute nothing; otherwise iterate the Members list, one record
per entry.  Any raise propagates. -/
def RedfishAPI.collect_sel (env : Env) (now : Rat)
    (parseTs : String → Except PyErr Int) : Except PyErr (List MetricCall) := do
  let data ← RedfishAPI.get env selPath
  match data.error with
  | some _ => pure []
  | none => do
    let members ← data.json.dictGet "Members"
    let entries ← pyIter members
    entries.mapM (selEntry now parseTs)

/-- collect_basics: fetch the system resource; a reported error code makes
the collector contribute nothing; otherwise six records in a fixed order.
Any missing field raises (KeyError) and propagates.  In the Python source the
first records are appended before the later field accesses, but a raise
discards the pass before the sink is ever rendered, so the all-or-nothing
reading is observationally equal. -/
def RedfishAPI.collect_basics (env : Env) : Except PyErr (List MetricCall) := do
  let data ← RedfishAPI.get env basicsPath
  match data.error with
  | some _ => pure []
  | none => do
    let d := data.json
    let ps ← d.getItem "PowerState"
    let v1 : Int := if ps.eqStr "On" then 1 else 0
    let st ← d.getItem "Status"
    let health ← st.getItem "Health"
    let v2 : Int := if health.eqStr "OK" then 1 else 0
    let led ← d.getItem "IndicatorLED"
    let v3 : Int := if led.eqStr "Off" then 0 else 1
    let ms ← d.getItem "MemorySummary"
    let memJ ← ms.getItem "TotalSystemMemoryGiB"
    let g ← pyFloat memJ
    let v4 : Int := ratTrunc (g * 1024 ^ 4 / 10 ^ 9)
    let prs ← d.getItem "ProcessorSummary"
    let model ← prs.getItem "Model"
    let cnt ← prs.getItem "Count"
    let bios ← d.getItem "BiosVersion"
    pure [ { name := "power_on", args := [], value := .int v1 },
           { name := "health_ok", args := [("status", health.toPyVal)], value := .int v2 },
           { name := "indicator_led_on", args := [], value := .int v3 },
           { name := "memory_size", args := [], value := .int v4 },
           { name := "cpu_count", args := [("model", model.toPyVal)], value := cnt.toPyVal },
           { name := "bios_version", args := [("version", bios.toPyVal)], value := .pyNone } ]

/-- The body of the sensor loop for one entry: zero or one records. -/
def sensorEntry (entry : Json) : Except PyErr (List MetricCall) := do
  let nm ← entry.getItem "ElementName"
  let did ← entry.getItem "DeviceID"
  let en ← entry.getItem "EnabledState"
  let args := [("name", nm.toPyVal), ("id", did.toPyVal),
               ("enabled", PyVal.int (if en.eqStr "Enabled" then 1 else 0))]
  let st ← entry.getItem "SensorType"
  if st.eqStr "Temperature" then do
    let crJ ← entry.getItem "CurrentReading"
    let g ← pyFloat crJ
    pure [{ name := "sensors_temperature", args := args, value := .float (g / 10) }]
  else if st.eqStr "Tachometer" then do
    let crJ ← entry.getItem "CurrentReading"
    let n ← pyInt crJ
    pure [{ name := "sensors_tachometer", args := args, value := .int n }]
  else
    pure []

/-- collect_sensors: fetch the vendor numeric sensor collection; a reported
error code makes the collector contribute nothing; otherwise iterate the
Members list.  Any raise propagates. -/
def RedfishAPI.collect_sensors (env : Env) : Except PyErr (List MetricCall) := do
  let data ← RedfishAPI.get env sensorsPath
  match data.error with
  | some _ => pure []
  | none => do
    let members ← data.json.dictGet "Members"
    let entries ← pyIter members
    let lists ← entries.mapM sensorEntry
    pure lists.flatten

/-- RedfishAPI.collect_metrics: clear the sink, run the three collectors in
the fixed order basics / sensors / event log, render the sink.  The second
component counts the transport calls issued during the pass (each collector
issues exactly one fetch; a raise aborts the collectors after it). -/
def RedfishAPI.collect_metrics (env : Env) (now : Rat)
    (parseTs : String → Except PyErr Int) : Except PyErr String × Nat :=
  match RedfishAPI.collect_basics env with
  | .error e => (.error e, 1)
  | .ok b =>
    match RedfishAPI.collect_sensors env with
    | .error e => (.error e, 2)
    | .ok s =>
      match RedfishAPI.collect_sel env now parseTs with
      | .error e => (.error e, 3)
      | .ok l => (.ok (RedfishAPI.metrics_get (sinkAfter (b ++ s ++ l))).1, 3)

/-!  Host registry and the request level collect_metrics -/

/-- One entry of the module level hosts dict.  token is set at startup;
session is none while the key host is absent from the dict, and some valid
once the probe ran and stored info[host] together with info[valid]. -/
structure HostInfo where
  token : String
  session : Option Bool
  deriving Repr, DecidableEq

/-- The module level hosts dict: target name to its entry, insertion
ordered. -/
def Hosts : Type := List (String × HostInfo)

/-- Python dict assignment hosts[k] = v. -/
def hostsSet : Hosts → String → HostInfo → Hosts
  | [], k, v => [(k, v)]
  | (k0, v0) :: rest, k, v =>
    if k0 = k then (k, v) :: rest else (k0, v0) :: hostsSet rest k v

/-- Result of one request level collect_metrics call: the returned text or
the raised exception, the hosts dict afterwards, and how many transport
calls the request issued. -/
structure StepResult where
  result : Except PyErr String
  hosts : Hosts
  netCalls : Nat

/-- The module level collect_metrics(host): seed an unknown target from the
default entry, run the one time probe when the target has no cached session,
then either collect or raise RuntimeError for a cached invalid session. -/
def collect_metrics (hosts : Hosts) (hostname : String) (env : Env) (now : Rat)
    (parseTs : String → Except PyErr Int) : StepResult :=
  let seeded : Except PyErr Hosts :=
    match hosts.lookup hostname with
    | some _ => .ok hosts
    | none =>
      match hosts.lookup "default" with
      | some d => .ok (hostsSet hosts hostname d)
      | none => .error .keyError
  match seeded with
  | .error e => { result := .error e, hosts := hosts, netCalls := 0 }
  | .ok hosts1 =>
    match hosts1.lookup hostname with
    | none => { result := .error .keyError, hosts := hosts1, netCalls := 0 }
    | some info =>
      match info.session with
      | none =>
        let valid := RedfishAPI.authenticate env
        let hosts2 := hostsSet hosts1 hostname { info with session := some valid }
        if valid then
          let (res, calls) := RedfishAPI.collect_metrics env now parseTs
          { result := res, hosts := hosts2, netCalls := 1 + calls }
        else
          { result := .error (.runtimeError "Invalid host"), hosts := hosts2,
            netCalls := 1 }
      | some valid =>
        if valid then
          let (res, calls) := RedfishAPI.collect_metrics env now parseTs
          { result := res, hosts := hosts1, netCalls := calls }
        else
          { result := .error (.runtimeError "Invalid host"), hosts := hosts1,
            netCalls := 0 }

/-!  HTTP handler (ServiceHandler.do_GET) -/

def isLowerLetter (c : Char) : Bool := 97 ≤ c.toNat ∧ c.toNat ≤ 122

/-- Whether the pattern list is an initial segment of the other list. -/
def startsWithList : List Char → List Char → Bool
  | [], _ => true
  | _ :: _, [] => false
  | p :: ps, c :: cs => p == c && startsWithList ps cs

/-- The route regular expression of do_GET matched against the request path:
a slash, a non-empty run of lowercase letters (group 1), then optionally the
literal text ?target= followed by the rest of the path (group 3).  none means
re.match returned None, in which case do_GET raises AttributeError on the
group call and no response is sent.  Request paths contain no newline, so the
dot-star group is the rest of the string. -/
def parsePath (path : String) : Option (String × Option String) :=
  match path.toList with
  | '/' :: rest =>
    let letters := rest.takeWhile isLowerLetter
    if letters.isEmpty then none
    else
      let tail := rest.drop letters.length
      if startsWithList "?target=".toList tail then
        some (String.mk letters, some (String.mk (tail.drop 8)))
      else
        some (String.mk letters, none)
  | _ => none

/-- A sent HTTP response: status code and body text. -/
structure HttpResponse where
  status : Nat
  body : String
  deriving Repr, DecidableEq

/-- ServiceHandler.do_GET: route on the path; missing or empty target gives
400, an unknown first segment gives 404, a raise out of collect_metrics is
caught broadly and gives 500 with an empty body, success gives 200 with the
rendered text.  A path the route pattern does not match makes the handler
itself raise, so no response at all is sent (the none case). -/
def ServiceHandler.do_GET (hosts : Hosts) (path : String) (env : Env) (now : Rat)
    (parseTs : String → Except PyErr Int) : Option HttpResponse × Hosts :=
  match parsePath path with
  | none => (none, hosts)
  | some (b, p) =>
    let noTarget : Bool :=
      match p with
      | none => true
      | some t => t.isEmpty
    let status : Nat := if b = "metrics" then (if noTarget then 400 else 200) else 404
    if status = 200 then
      match p with
      | some t =>
        let r := collect_metrics hosts t env now parseTs
        match r.result with
        | .ok m => (some { status := 200, body := m }, r.hosts)
        | .error _ => (some { status := 500, body := "" }, r.hosts)
      | none => (some { status := 500, body := "" }, hosts)
    else
      (some { status := status, body := "" }, hosts)

/-!  Definitions taken from the words of the specification, for comparison -/

/-- Modelled from the spec: the message text with any trailing period
characters stripped, and only trailing ones. -/
def specStripTrailingDots (s : String) : String :=
  String.mk ((s.toList.reverse.dropWhile (· == '.')).reverse)

/-!  Small helpers for stating and instantiating the claims -/

/-- Point update of an upstream environment. -/
def envSet (env : Env) (path : String) (r : HttpResult) : Env :=
  fun p => if p = path then r else env p

/-- An environment built from the three resources the collectors fetch; any
other path raises at the transport. -/
def mkEnv3 (b s l : HttpResult) : Env :=
  fun p =>
    if p = basicsPath then b
    else if p = sensorsPath then s
    else if p = selPath then l
    else .exc

/-!  Helper lemmas -/

theorem foldl_metrics_add_eq (l : List MetricCall) (init : List String) :
    l.foldl (fun st c => RedfishAPI.metrics_add st c.name c.args c.value) init
      = init ++ l.map (fun c => formatLine c.name c.args c.value) := by
  induction l generalizing init with
  | nil => simp
  | cons c cs ih =>
    rw [List.foldl_cons, ih]
    simp [RedfishAPI.metrics_add]

theorem sinkAfter_eq (calls : List MetricCall) :
    sinkAfter calls = calls.map (fun c => formatLine c.name c.args c.value) := by
  simp [sinkAfter, foldl_metrics_add_eq, RedfishAPI.metrics_clear]

theorem ratTrunc_eq_of_nonneg (q : Rat) (n : Int) (h0 : 0 ≤ q)
    (h1 : (n : Rat) ≤ q) (h2 : q < n + 1) : ratTrunc q = n := by
  have hnum : 0 ≤ q.num := Rat.num_nonneg.mpr h0
  have hden : (0 : Int) ≤ (q.den : Int) := Int.ofNat_nonneg _
  have hfloor : ratTrunc q = ⌊q⌋ := by
    rw [ratTrunc, Int.tdiv_eq_ediv hnum hden, Rat.floor_def]
  rw [hfloor, Int.floor_eq_iff]
  constructor
  · exact_mod_cast h1
  · exact_mod_cast h2

@[simp] theorem except_bind_ok {ε α β : Type} (a : α) (f : α → Except ε β) :
    (Except.ok a >>= f : Except ε β) = f a := rfl

@[simp] theorem except_bind_error {ε α β : Type} (e : ε) (f : α → Except ε β) :
    (Except.error e >>= f : Except ε β) = .error e := rfl

@[simp] theorem except_pure_eq_ok {ε α : Type} (a : α) :
    (pure a : Except ε α) = .ok a := rfl

@[simp] theorem except_map_ok {ε α β : Type} (g : α → β) (a : α) :
    (g <$> (Except.ok a : Except ε α) : Except ε β) = .ok (g a) := rfl

@[simp] theorem except_map_error {ε α β : Type} (g : α → β) (e : ε) :
    (g <$> (Except.error e : Except ε α) : Except ε β) = .error e := rfl

/-!  Claim C8 -/

/-- C8: for every Metric Sink state, render returns the current records
joined with newline separators plus one trailing newline, leaves the record
buffer unchanged, and two consecutive render calls with no add in between
return identical text. -/
theorem C8_render_joins_keeps_buffer_idempotent (l : List String) :
    (RedfishAPI.metrics_get l).1 = String.intercalate "\n" l ++ "\n" ∧
    (RedfishAPI.metrics_get l).2 = l ∧
    (RedfishAPI.metrics_get (RedfishAPI.metrics_get l).2).1
      = (RedfishAPI.metrics_get l).1 :=
  ⟨rfl, rfl, rfl⟩

/-!  Claim C9 -/

/-- C9: every add appends exactly one line, which is the fixed namespace
followed by the name, a label set in braces only when labels is non-empty (no
empty braces otherwise), then the value; a missing (None) value renders as
the literal NaN token, and a string label value is rendered inside double
quotes exactly as given, with no escaping of embedded quote characters. -/
theorem C9_add_line_format (l : List String) (name k s : String)
    (rest : List (String × PyVal)) (value : PyVal) (n : Int) :
    RedfishAPI.metrics_add l name
        ((k, .str s) :: rest) value = l ++ [formatLine name ((k, .str s) :: rest) value] ∧
    formatLine name [] (.int n) = "idrac_" ++ name ++ "" ++ " " ++ toString n ∧
    formatLine name [] .pyNone = "idrac_" ++ name ++ "" ++ " " ++ "NaN" ∧
    formatLine name ((k, .str s) :: rest) .pyNone
      = "idrac_" ++ name ++
          ("\x7b" ++ String.intercalate ","
            ((k ++ "=\"" ++ s ++ "\"") ::
              rest.map fun kv => kv.1 ++ "=\"" ++ pyStr kv.2 ++ "\"") ++ "\x7d")
          ++ " " ++ "NaN" ∧
    formatLine name ((k, .str s) :: rest) (.int n)
      = "idrac_" ++ name ++
          ("\x7b" ++ String.intercalate ","
            ((k ++ "=\"" ++ s ++ "\"") ::
              rest.map fun kv => kv.1 ++ "=\"" ++ pyStr kv.2 ++ "\"") ++ "\x7d")
          ++ " " ++ toString n ∧
    pyStr (.str s) = s := by
  refine ⟨rfl, rfl, rfl, ?_, ?_, rfl⟩ <;> simp [formatLine, pyStr]

/-!  Claim C2 -/

/-- C2 counterexample: the transport get raises on a transport exception
instead of returning normally, and on a non-200 status it returns the parsed
body, which need not be empty.  Both contradict the claim as stated. -/
theorem C2_counterexample :
    RedfishAPI.get (fun _ => HttpResult.exc) "Chassis" = .error .transportError ∧
    RedfishAPI.get (fun _ => .resp 404 (some (.obj [("k", .str "v")]))) "Chassis"
      = .ok { json := .obj [("k", .str "v")], error := some 404 } :=
  ⟨rfl, rfl⟩

/-- C2 amended: when the status is not 200 but the body decodes as JSON, get
returns normally with the parsed (possibly non-empty) body and the status
code as the error indicator, distinguishing failures only by that code; when
the transport raises, or the body fails to decode, get raises to the
caller instead of returning. -/
theorem C2_amended_get_behaviour (env : Env) (url : String) (status : Nat)
    (body : Json) (h : status ≠ 200) :
    (env url = .resp status (some body) →
      RedfishAPI.get env url = .ok { json := body, error := some status }) ∧
    (env url = .resp status none →
      RedfishAPI.get env url = .error .jsonDecodeError) ∧
    (env url = .exc → RedfishAPI.get env url = .error .transportError) := by
  refine ⟨fun he => ?_, fun he => ?_, fun he => ?_⟩ <;> simp [RedfishAPI.get, he, h]

/-- Witness for the amended C2 at a concrete input. -/
theorem C2_amended_witness :
    RedfishAPI.get (fun _ => .resp 404 (some Json.null)) "Chassis"
      = .ok { json := Json.null, error := some 404 } :=
  (C2_amended_get_behaviour (fun _ => .resp 404 (some Json.null)) "Chassis" 404
    Json.null (by decide)).1 rfl

/-!  Claim C10 -/

/-- C10: rendering the sink immediately after clear returns the single
newline character, and a collection pass in which every collector fetch
reports a non-200 status (so every collector contributes nothing) succeeds
with the one-character body consisting of a newline, not an empty body. -/
theorem C10_empty_pass_body_is_newline (s1 s2 s3 : Nat) (j1 j2 j3 : Json)
    (now : Rat) (parseTs : String → Except PyErr Int)
    (h1 : s1 ≠ 200) (h2 : s2 ≠ 200) (h3 : s3 ≠ 200) :
    (RedfishAPI.metrics_get RedfishAPI.metrics_clear).1 = "\n" ∧
    (RedfishAPI.collect_metrics
        (mkEnv3 (.resp s1 (some j1)) (.resp s2 (some j2)) (.resp s3 (some j3)))
        now parseTs).1 = .ok "\n" := by
  have hb : RedfishAPI.collect_basics
      (mkEnv3 (.resp s1 (some j1)) (.resp s2 (some j2)) (.resp s3 (some j3))) = .ok [] := by
    simp [RedfishAPI.collect_basics, RedfishAPI.get, mkEnv3, basicsPath,
      sensorsPath, selPath, h1]
  have hs : RedfishAPI.collect_sensors
      (mkEnv3 (.resp s1 (some j1)) (.resp s2 (some j2)) (.resp s3 (some j3))) = .ok [] := by
    simp [RedfishAPI.collect_sensors, RedfishAPI.get, mkEnv3, basicsPath,
      sensorsPath, selPath, h2]
  have hl : RedfishAPI.collect_sel
      (mkEnv3 (.resp s1 (some j1)) (.resp s2 (some j2)) (.resp s3 (some j3)))
      now parseTs = .ok [] := by
    simp [RedfishAPI.collect_sel, RedfishAPI.get, mkEnv3, basicsPath,
      sensorsPath, selPath, h3]
  refine ⟨rfl, ?_⟩
  simp only [RedfishAPI.collect_metrics, hb, hs, hl]
  have hempty : (RedfishAPI.metrics_get (sinkAfter ([] ++ [] ++ []))).1 = "\n" := by decide
  rw [hempty]

/-- Witness for C10 at a concrete input. -/
theorem C10_witness :
    (RedfishAPI.collect_metrics
        (mkEnv3 (.resp 404 (some .null)) (.resp 404 (some .null))
          (.resp 404 (some .null)))
        0 (fun _ => .ok 0)).1 = .ok "\n" :=
  (C10_empty_pass_body_is_newline 404 404 404 .null .null .null 0 (fun _ => .ok 0)
    (by decide) (by decide) (by decide)).2

/-!  Claim C1 -/

/-- Upstream for the C1 counterexample: every resource answers 200, the
system resource with a document that lacks the expected PowerState field, the
other two with well-formed empty Members lists. -/
def c1Env : Env :=
  mkEnv3 (.resp 200 (some (.obj [])))
    (.resp 200 (some (.obj [("Members", .arr [])])))
    (.resp 200 (some (.obj [("Members", .arr [])])))

/-- C1 counterexample: a missing expected field is not absorbed inside the
collector.  With a 200 system document lacking PowerState, the basics
collector raises KeyError, the whole collection pass fails even though the
sensors collector alone would have succeeded, and the request is answered
with status 500 instead of metrics. -/
theorem C1_counterexample :
    RedfishAPI.collect_sensors c1Env = .ok [] ∧
    (RedfishAPI.collect_metrics c1Env 0 (fun _ => .ok 0)).1 = .error .keyError ∧
    (ServiceHandler.do_GET [("h", { token := "tok", session := some true })]
        "/metrics?target=h" c1Env 0 (fun _ => .ok 0)).1
      = some { status := 500, body := "" } :=
  ⟨rfl, rfl, rfl⟩

/-- C1 amended: only a fetch that returns with a non-200 status code and a
decodable body is absorbed, by the explicit error check inside each
collector: that collector then contributes zero records, and the other
collectors are unaffected, the pass succeeding with their records.  A
transport exception, an undecodable body, or a missing or malformed expected
field instead raises out of the collector, aborting the remaining collectors
and failing the collection pass as a whole. -/
theorem C1_amended_error_check_only (env : Env) (now : Rat)
    (parseTs : String → Except PyErr Int) (status : Nat) (j : Json)
    (h : status ≠ 200) :
    RedfishAPI.collect_basics (envSet env basicsPath (.resp status (some j)))
      = .ok [] ∧
    RedfishAPI.collect_sensors (envSet env sensorsPath (.resp status (some j)))
      = .ok [] ∧
    RedfishAPI.collect_sel (envSet env selPath (.resp status (some j))) now parseTs
      = .ok [] ∧
    (∀ b s l, RedfishAPI.collect_basics env = .ok b →
      RedfishAPI.collect_sensors env = .ok s →
      RedfishAPI.collect_sel env now parseTs = .ok l →
      (RedfishAPI.collect_metrics env now parseTs).1
        = .ok (RedfishAPI.metrics_get (sinkAfter (b ++ s ++ l))).1) := by
  refine ⟨?_, ?_, ?_, fun b s l hb hs hl => ?_⟩
  · simp [RedfishAPI.collect_basics, RedfishAPI.get, envSet, h]
  · simp [RedfishAPI.collect_sensors, RedfishAPI.get, envSet, h]
  · simp [RedfishAPI.collect_sel, RedfishAPI.get, envSet, h]
  · simp only [RedfishAPI.collect_metrics, hb, hs, hl]

/-- Witness for the amended C1 at a concrete input. -/
theorem C1_amended_witness :
    RedfishAPI.collect_basics
        (envSet (fun _ => .resp 404 (some .null)) basicsPath (.resp 404 (some .null)))
      = .ok [] ∧
    (RedfishAPI.collect_metrics (fun _ => .resp 404 (some .null)) 0 (fun _ => .ok 0)).1
      = .ok (RedfishAPI.metrics_get (sinkAfter ([] ++ [] ++ []))).1 := by
  have h := C1_amended_error_check_only (fun _ => .resp 404 (some .null)) 0
    (fun _ => .ok 0) 404 .null (by decide)
  exact ⟨h.1, h.2.2.2 [] [] [] rfl rfl rfl⟩

/-!  Claim C3 -/

/-- C3: once the one time probe for a target has failed and its entry caches
an invalid session, every further collection request for that target returns
the identical RuntimeError rejection, issues zero transport calls (so no
collector runs), and leaves the hosts dict unchanged, so the same holds for
every request after it for the life of the process. -/
theorem C3_invalid_session_permanent (hosts : Hosts) (hostname : String)
    (env : Env) (now : Rat) (parseTs : String → Except PyErr Int)
    (info : HostInfo) (hmem : hosts.lookup hostname = some info)
    (hinvalid : info.session = some false) :
    (collect_metrics hosts hostname env now parseTs).result
      = .error (.runtimeError "Invalid host") ∧
    (collect_metrics hosts hostname env now parseTs).netCalls = 0 ∧
    (collect_metrics hosts hostname env now parseTs).hosts = hosts := by
  refine ⟨?_, ?_, ?_⟩ <;> simp [collect_metrics, hmem, hinvalid]

/-- Witness for C3 at a concrete input. -/
theorem C3_witness :
    (collect_metrics [("h1", { token := "tok", session := some false })] "h1"
        (fun _ => .exc) 0 (fun _ => .ok 0)).result
      = .error (.runtimeError "Invalid host") ∧
    (collect_metrics [("h1", { token := "tok", session := some false })] "h1"
        (fun _ => .exc) 0 (fun _ => .ok 0)).netCalls = 0 :=
  have h := C3_invalid_session_permanent
    [("h1", { token := "tok", session := some false })] "h1"
    (fun _ => .exc) 0 (fun _ => .ok 0)
    { token := "tok", session := some false } rfl rfl
  ⟨h.1, h.2.1⟩

/-!  Claim C4 -/

/-- C4 counterexample: for the path consisting of a bare slash the route
pattern does not match, the handler raises on the group call, and no response
is sent at all, contradicting the claim that every inbound GET request is
answered with one of three statuses. -/
theorem C4_counterexample :
    (ServiceHandler.do_GET [] "/" (fun _ => .exc) 0 (fun _ => .ok 0)).1 = none :=
  rfl

/-- C4 amended: for every request whose path matches the route pattern (a
slash followed by a non-empty lowercase segment), the handler returns exactly
one of three distinct statuses with an empty body on failure: 400 when the
segment is metrics but the target parameter is missing or empty, 404 when the
segment is anything else, 500 when collection raises, and on success 200 with
the rendered metric text; a path the pattern does not match is instead
answered with no response at all because the handler itself raises. -/
theorem C4_amended_router (hosts : Hosts) (path : String) (env : Env) (now : Rat)
    (parseTs : String → Except PyErr Int) (b : String) (p : Option String)
    (hmatch : parsePath path = some (b, p)) :
    (b ≠ "metrics" →
      ServiceHandler.do_GET hosts path env now parseTs
        = (some { status := 404, body := "" }, hosts)) ∧
    (b = "metrics" → (p = none ∨ p = some "") →
      ServiceHandler.do_GET hosts path env now parseTs
        = (some { status := 400, body := "" }, hosts)) ∧
    (∀ t e, b = "metrics" → p = some t → t ≠ "" →
      (collect_metrics hosts t env now parseTs).result = .error e →
      ServiceHandler.do_GET hosts path env now parseTs
        = (some { status := 500, body := "" },
           (collect_metrics hosts t env now parseTs).hosts)) ∧
    (∀ t m, b = "metrics" → p = some t → t ≠ "" →
      (collect_metrics hosts t env now parseTs).result = .ok m →
      ServiceHandler.do_GET hosts path env now parseTs
        = (some { status := 200, body := m },
           (collect_metrics hosts t env now parseTs).hosts)) := by
  refine ⟨fun hb => ?_, fun hb hp => ?_, fun t e hb hp ht herr => ?_,
    fun t m hb hp ht hok => ?_⟩
  · simp [ServiceHandler.do_GET, hmatch, hb]
  · subst hb
    rcases hp with hp | hp <;> subst hp <;>
      simp [ServiceHandler.do_GET, hmatch, show ("" : String).isEmpty = true from rfl]
  · subst hb; subst hp
    have hne : t.isEmpty = false := by
      cases hemp : t.isEmpty
      · rfl
      · exact absurd ((String.isEmpty_iff t).mp hemp) ht
    simp [ServiceHandler.do_GET, hmatch, hne, herr]
  · subst hb; subst hp
    have hne : t.isEmpty = false := by
      cases hemp : t.isEmpty
      · rfl
      · exact absurd ((String.isEmpty_iff t).mp hemp) ht
    simp [ServiceHandler.do_GET, hmatch, hne, hok]

/-- Witness for the amended C4 at concrete inputs, one per status. -/
theorem C4_amended_witness :
    ServiceHandler.do_GET [] "/abc" (fun _ => .exc) 0 (fun _ => .ok 0)
      = (some { status := 404, body := "" }, []) ∧
    ServiceHandler.do_GET [] "/metrics" (fun _ => .exc) 0 (fun _ => .ok 0)
      = (some { status := 400, body := "" }, []) ∧
    ServiceHandler.do_GET [] "/metrics?target=h" (fun _ => .exc) 0 (fun _ => .ok 0)
      = (some { status := 500, body := "" },
         (collect_metrics [] "h" (fun _ => .exc) 0 (fun _ => .ok 0)).hosts) ∧
    ServiceHandler.do_GET [("h", { token := "tok", session := some true })]
        "/metrics?target=h" (fun _ => .resp 404 (some .null)) 0 (fun _ => .ok 0)
      = (some { status := 200, body := "\n" },
         (collect_metrics [("h", { token := "tok", session := some true })] "h"
           (fun _ => .resp 404 (some .null)) 0 (fun _ => .ok 0)).hosts) := by
  refine ⟨?_, ?_, ?_, ?_⟩
  · exact (C4_amended_router [] "/abc" (fun _ => .exc) 0 (fun _ => .ok 0)
      "abc" none rfl).1 (by decide)
  · exact (C4_amended_router [] "/metrics" (fun _ => .exc) 0 (fun _ => .ok 0)
      "metrics" none rfl).2.1 rfl (Or.inl rfl)
  · exact (C4_amended_router [] "/metrics?target=h" (fun _ => .exc) 0
      (fun _ => .ok 0) "metrics" (some "h") rfl).2.2.1 "h" .keyError rfl rfl
      (by decide) rfl
  · exact (C4_amended_router [("h", { token := "tok", session := some true })]
      "/metrics?target=h" (fun _ => .resp 404 (some .null)) 0 (fun _ => .ok 0)
      "metrics" (some "h") rfl).2.2.2 "h" "\n" rfl rfl (by decide) rfl

/-!  Claim C5 -/

/-- One event log entry whose message has leading as well as trailing
periods, for the C5 counterexample. -/
def c5Entry : Json :=
  .obj [("Id", .str "1"), ("Message", .str "..Fan failure."),
        ("SensorType", .str "Fan"), ("Severity", .str "Critical"),
        ("Created", .str "2024-01-01T00:00:00Z")]

/-- Upstream for the C5 counterexample. -/
def c5Env : Env :=
  mkEnv3 .exc .exc (.resp 200 (some (.obj [("Members", .arr [c5Entry])])))

/-- C5 counterexample: the source strips periods with strip("."), which
removes leading periods as well, so for the message "..Fan failure." the
emitted label is "Fan failure" and not the claimed trailing-only result
"..Fan failure". -/
theorem C5_counterexample :
    RedfishAPI.collect_sel c5Env 100 (fun _ => .ok 100)
      = .ok [{ name := "sel_entry",
               args := [("id", .str "1"), ("message", .str "Fan failure"),
                        ("component", .str "Fan"), ("severity", .str "Critical")],
               value := .int (ratTrunc ((100 : Rat) - ((100 : Int) : Rat))) }] ∧
    specStripTrailingDots "..Fan failure." = "..Fan failure" ∧
    "Fan failure" ≠ "..Fan failure" :=
  ⟨rfl, rfl, by decide⟩

/-- C5 amended: for every event log entry the emitted value is the truncated
difference between the wall clock reading and the parsed whole-second
creation timestamp, and the message label is the message text with leading
and trailing period characters stripped. -/
theorem C5_amended_sel_entry (now : Rat) (parseTs : String → Except PyErr Int)
    (entry eid comp sev : Json) (msgS createdS : String) (t : Int)
    (h1 : entry.getItem "Id" = .ok eid)
    (h2 : entry.getItem "Message" = .ok (.str msgS))
    (h3 : entry.getItem "SensorType" = .ok comp)
    (h4 : entry.getItem "Severity" = .ok sev)
    (h5 : entry.getItem "Created" = .ok (.str createdS))
    (h6 : parseTs createdS = .ok t) :
    selEntry now parseTs entry
      = .ok { name := "sel_entry",
              args := [("id", eid.toPyVal), ("message", .str (pyStripDots msgS)),
                       ("component", comp.toPyVal), ("severity", sev.toPyVal)],
              value := .int (ratTrunc (now - (t : Rat))) } := by
  simp [selEntry, h1, h2, h3, h4, h5, h6]

/-- One well-formed event log entry for the C5 witness. -/
def c5WitnessEntry : Json :=
  .obj [("Id", .str "3"), ("Message", .str "Backplane OK."),
        ("SensorType", .str "Storage"), ("Severity", .str "Ok"),
        ("Created", .str "2024-01-01T00:00:40Z")]

/-- Witness for the amended C5: an entry created 60 seconds before the
current time yields age 60, with the message stripped of its trailing
period. -/
theorem C5_amended_witness :
    selEntry 100 (fun _ => .ok 40) c5WitnessEntry
      = .ok { name := "sel_entry",
              args := [("id", .str "3"), ("message", .str "Backplane OK"),
                       ("component", .str "Storage"), ("severity", .str "Ok")],
              value := .int (ratTrunc ((100 : Rat) - ((40 : Int) : Rat))) } ∧
    ratTrunc ((100 : Rat) - ((40 : Int) : Rat)) = 60 := by
  constructor
  · exact C5_amended_sel_entry 100 (fun _ => .ok 40) c5WitnessEntry
      (.str "3") (.str "Storage") (.str "Ok") "Backplane OK." "2024-01-01T00:00:40Z"
      40 rfl rfl rfl rfl rfl rfl
  · apply ratTrunc_eq_of_nonneg <;> norm_num

/-!  Claim C6 -/

/-- C6: when the system resource is fetched successfully and all its expected
fields are present, with TotalSystemMemoryGiB parsing as the floating value
g, the emitted memory_size value is the integer truncation of
g * 1024 ^ 4 / 10 ^ 9, the literal conversion factor of the source. -/
theorem C6_memory_size_formula (env : Env)
    (data ps st health led ms memJ prs model cnt bios : Json) (g : Rat)
    (henv : env basicsPath = .resp 200 (some data))
    (h1 : data.getItem "PowerState" = .ok ps)
    (h2 : data.getItem "Status" = .ok st)
    (h3 : st.getItem "Health" = .ok health)
    (h4 : data.getItem "IndicatorLED" = .ok led)
    (h5 : data.getItem "MemorySummary" = .ok ms)
    (h6 : ms.getItem "TotalSystemMemoryGiB" = .ok memJ)
    (h7 : pyFloat memJ = .ok g)
    (h8 : data.getItem "ProcessorSummary" = .ok prs)
    (h9 : prs.getItem "Model" = .ok model)
    (h10 : prs.getItem "Count" = .ok cnt)
    (h11 : data.getItem "BiosVersion" = .ok bios) :
    RedfishAPI.collect_basics env = .ok
      [ { name := "power_on", args := [],
          value := .int (if ps.eqStr "On" then 1 else 0) },
        { name := "health_ok", args := [("status", health.toPyVal)],
          value := .int (if health.eqStr "OK" then 1 else 0) },
        { name := "indicator_led_on", args := [],
          value := .int (if led.eqStr "Off" then 0 else 1) },
        { name := "memory_size", args := [],
          value := .int (ratTrunc (g * 1024 ^ 4 / 10 ^ 9)) },
        { name := "cpu_count", args := [("model", model.toPyVal)],
          value := cnt.toPyVal },
        { name := "bios_version", args := [("version", bios.toPyVal)],
          value := .pyNone } ] := by
  simp [RedfishAPI.collect_basics, RedfishAPI.get, henv, h1, h2, h3, h4, h5, h6,
    h7, h8, h9, h10, h11]

/-- The system document for the C6 witness: 16 GiB of memory. -/
def c6Data : Json :=
  .obj [("PowerState", .str "On"),
        ("Status", .obj [("Health", .str "OK")]),
        ("IndicatorLED", .str "Off"),
        ("MemorySummary", .obj [("TotalSystemMemoryGiB", .float 16)]),
        ("ProcessorSummary", .obj [("Model", .str "CPU X"), ("Count", .int 2)]),
        ("BiosVersion", .str "1.0.0")]

/-- Witness for C6: 16 GiB maps to 16 * 1024 ^ 4 / 10 ^ 9 truncated, which is
17592 (and not the power-of-two byte count 17179869184). -/
theorem C6_witness :
    RedfishAPI.collect_basics (mkEnv3 (.resp 200 (some c6Data)) .exc .exc) = .ok
      [ { name := "power_on", args := [], value := .int 1 },
        { name := "health_ok", args := [("status", .str "OK")], value := .int 1 },
        { name := "indicator_led_on", args := [], value := .int 0 },
        { name := "memory_size", args := [],
          value := .int (ratTrunc ((16 : Rat) * 1024 ^ 4 / 10 ^ 9)) },
        { name := "cpu_count", args := [("model", .str "CPU X")], value := .int 2 },
        { name := "bios_version", args := [("version", .str "1.0.0")],
          value := .pyNone } ] ∧
    ratTrunc ((16 : Rat) * 1024 ^ 4 / 10 ^ 9) = 17592 := by
  constructor
  · exact C6_memory_size_formula (mkEnv3 (.resp 200 (some c6Data)) .exc .exc)
      c6Data (.str "On") (.obj [("Health", .str "OK")]) (.str "OK") (.str "Off")
      (.obj [("TotalSystemMemoryGiB", .float 16)]) (.float 16)
      (.obj [("Model", .str "CPU X"), ("Count", .int 2)]) (.str "CPU X") (.int 2)
      (.str "1.0.0") 16 rfl rfl rfl rfl rfl rfl rfl rfl rfl rfl rfl rfl
  · apply ratTrunc_eq_of_nonneg <;> norm_num

/-!  Claim C7 -/

/-- C7: for a sensor entry with all its expected fields, the collector emits
the reading divided by 10 for type Temperature, the reading truncated to an
integer for type Tachometer, and nothing at all for any other type. -/
theorem C7_sensor_values (entry nm did en st : Json)
    (h1 : entry.getItem "ElementName" = .ok nm)
    (h2 : entry.getItem "DeviceID" = .ok did)
    (h3 : entry.getItem "EnabledState" = .ok en)
    (h4 : entry.getItem "SensorType" = .ok st) :
    (∀ crJ g, st = .str "Temperature" →
      entry.getItem "CurrentReading" = .ok crJ → pyFloat crJ = .ok g →
      sensorEntry entry = .ok
        [{ name := "sensors_temperature",
           args := [("name", nm.toPyVal), ("id", did.toPyVal),
                    ("enabled", .int (if en.eqStr "Enabled" then 1 else 0))],
           value := .float (g / 10) }]) ∧
    (∀ crJ n, st = .str "Tachometer" →
      entry.getItem "CurrentReading" = .ok crJ → pyInt crJ = .ok n →
      sensorEntry entry = .ok
        [{ name := "sensors_tachometer",
           args := [("name", nm.toPyVal), ("id", did.toPyVal),
                    ("enabled", .int (if en.eqStr "Enabled" then 1 else 0))],
           value := .int n }]) ∧
    (st.eqStr "Temperature" = false → st.eqStr "Tachometer" = false →
      sensorEntry entry = .ok []) := by
  refine ⟨fun crJ g hst hcr hg => ?_, fun crJ n hst hcr hn => ?_, fun hs1 hs2 => ?_⟩
  · subst hst
    simp [sensorEntry, h1, h2, h3, h4, hcr, hg, Json.eqStr]
  · subst hst
    simp [sensorEntry, h1, h2, h3, h4, hcr, hn, Json.eqStr]
  · simp [sensorEntry, h1, h2, h3, h4, hs1, hs2]

/-- A temperature sensor entry with raw reading 423 for the C7 witness. -/
def c7Entry : Json :=
  .obj [("ElementName", .str "CPU1 Temp"), ("DeviceID", .str "iDRAC.Temp.1"),
        ("EnabledState", .str "Enabled"), ("SensorType", .str "Temperature"),
        ("CurrentReading", .int 423)]

/-- Witness for C7: raw reading 423 of a Temperature sensor emits the value
423 / 10, which equals 42.3. -/
theorem C7_witness :
    sensorEntry c7Entry = .ok
      [{ name := "sensors_temperature",
         args := [("name", .str "CPU1 Temp"), ("id", .str "iDRAC.Temp.1"),
                  ("enabled", .int 1)],
         value := .float (((423 : Int) : Rat) / 10) }] ∧
    ((423 : Int) : Rat) / 10 = (42.3 : Rat) := by
  constructor
  · exact (C7_sensor_values c7Entry (.str "CPU1 Temp") (.str "iDRAC.Temp.1")
      (.str "Enabled") (.str "Temperature") rfl rfl rfl rfl).1
      (.int 423) ((423 : Int) : Rat) rfl rfl rfl
  · norm_num
